import Mathlib

/-!
Verification of the CrewAI MedScheduler slot-allocation core.

The embedding models the Supabase edge-function request handlers
(`book_appointment`, `reschedule_appointment`, `cancel_appointment`,
`get_slots` from the booking agent; `submit_response` from the
questionnaire agent; `schedule_reminder` from the reminder agent) and the
CrewAI client (`automaticBookingWithCrewAI`) as pure functions over an
explicit store.  Each database call of the source becomes one primitive
operation on the store; a handler is the sequential composition of its
calls, in source order.  For the concurrency analysis of booking, the
handler is additionally broken into its primitive steps and run under an
explicit interleaving of two callers.
-/

namespace MedScheduler

/-- Appointment status values used by the `appointments` table. -/
inductive AppStatus where
  | confirmed
  | pending
  | cancelled
  | completed
deriving DecidableEq, Repr

/-- Reminder status values used by the `reminders` table. -/
inductive RemStatus where
  | pending
  | sent
  | failed
deriving DecidableEq, Repr

/-- A row of `appointment_slots`: a bookable (doctor, date, time) unit with
an availability flag.  Dates and times are encoded as naturals. -/
structure Slot where
  id : Nat
  doctor_id : Nat
  slot_date : Nat
  slot_time : Nat
  is_available : Bool
deriving DecidableEq, Repr

/-- A row of `appointments`.  `slot_id` is the captured slot reference;
date and time are the denormalized copies written at booking/reschedule. -/
structure Appointment where
  id : Nat
  patient_id : Nat
  doctor_id : Nat
  slot_id : Nat
  appointment_date : Nat
  appointment_time : Nat
  status : AppStatus
deriving DecidableEq, Repr

/-- A row of `reminders`. -/
structure Reminder where
  id : Nat
  appointment_id : Nat
  reminder_type : String
  scheduled_at : Nat
  status : RemStatus
  sent_at : Option Nat
deriving DecidableEq, Repr

/-- A row of `questionnaire_responses`; `(appointment_id, questionnaire_id)`
is the conflict key of the source's upsert. -/
structure QResponse where
  appointment_id : Nat
  patient_id : Nat
  questionnaire_id : String
  responses : List (String × String)
deriving DecidableEq, Repr

/-- The mutable shared state: the four tables reachable through the
Supabase client, plus a fresh-id counter for inserts. -/
structure Store where
  slots : List Slot
  appointments : List Appointment
  reminders : List Reminder
  qresponses : List QResponse
  nextId : Nat
deriving DecidableEq, Repr

/-! ### Primitive store operations (one per Supabase call shape) -/

/-- `from('appointment_slots').select().eq('id', sid).eq('is_available', true).single()`. -/
def lookupAvailableSlot (st : Store) (sid : Nat) : Option Slot :=
  st.slots.find? (fun s => s.id == sid && s.is_available)

/-- Point lookup of a slot by id. -/
def lookupSlot (st : Store) (sid : Nat) : Option Slot :=
  st.slots.find? (fun s => s.id == sid)

/-- `from('appointment_slots').update({is_available: b}).eq('id', sid)`:
an unconditional update of the flag on the matching row. -/
def setSlotAvailable (st : Store) (sid : Nat) (b : Bool) : Store :=
  { st with slots := st.slots.map (fun s => if s.id == sid then { s with is_available := b } else s) }

/-- `from('appointments').select().eq('id', aid).eq('patient_id', uid).single()`. -/
def lookupOwnedAppointment (st : Store) (aid uid : Nat) : Option Appointment :=
  st.appointments.find? (fun a => a.id == aid && a.patient_id == uid)

/-- `from('appointments').select().eq('id', aid).single()` (no ownership filter). -/
def lookupAppointment (st : Store) (aid : Nat) : Option Appointment :=
  st.appointments.find? (fun a => a.id == aid)

/-- `from('appointments').insert({...})`: append a fresh row. -/
def insertAppointment (st : Store) (a : Appointment) : Store :=
  { st with appointments := st.appointments ++ [a], nextId := st.nextId + 1 }

/-- `from('appointments').update({slot_id, appointment_date, appointment_time}).eq('id', aid)`. -/
def updateAppointmentSlot (st : Store) (aid sid date time : Nat) : Store :=
  { st with appointments := st.appointments.map (fun a =>
      if a.id == aid then { a with slot_id := sid, appointment_date := date, appointment_time := time } else a) }

/-- `from('appointments').update({status}).eq('id', aid)`. -/
def setAppointmentStatus (st : Store) (aid : Nat) (stat : AppStatus) : Store :=
  { st with appointments := st.appointments.map (fun a =>
      if a.id == aid then { a with status := stat } else a) }

/-! ### Booking-agent handlers (src/unnamed/part_000) -/

/-- Errors surfaced by the booking agent's handlers. -/
inductive BookingErr where
  | slotUnavailable
  | appointmentNotFound
deriving DecidableEq, Repr

/-- `book_appointment` (part_000 lines 69–115): read the slot filtered on
`is_available = true`; on a miss answer "Slot no longer available";
otherwise insert a `confirmed` appointment, then separately set the slot
unavailable. -/
def book_appointment (st : Store) (uid doctor_id slot_id date time : Nat) :
    Store × Except BookingErr Appointment :=
  match lookupAvailableSlot st slot_id with
  | none => (st, .error .slotUnavailable)
  | some _ =>
    let app : Appointment :=
      { id := st.nextId, patient_id := uid, doctor_id := doctor_id, slot_id := slot_id,
        appointment_date := date, appointment_time := time, status := .confirmed }
    let st1 := insertAppointment st app
    let st2 := setSlotAvailable st1 slot_id false
    (st2, .ok app)

/-- `reschedule_appointment` (part_000 lines 117–166): verify ownership by
the filtered read, then free the old slot, update the appointment's slot
reference and denormalized date/time, and finally mark the new slot
unavailable.  The new slot's availability is never consulted. -/
def reschedule_appointment (st : Store) (uid appointment_id new_slot_id new_date new_time : Nat) :
    Store × Except BookingErr Appointment :=
  match lookupOwnedAppointment st appointment_id uid with
  | none => (st, .error .appointmentNotFound)
  | some app =>
    let st1 := setSlotAvailable st app.slot_id true
    let st2 := updateAppointmentSlot st1 appointment_id new_slot_id new_date new_time
    let st3 := setSlotAvailable st2 new_slot_id false
    (st3, .ok { app with slot_id := new_slot_id, appointment_date := new_date, appointment_time := new_time })

/-- `cancel_appointment` (part_000 lines 168–203): verify ownership by the
filtered read, then set the status to `cancelled` and free the slot.  No
status precondition is checked. -/
def cancel_appointment (st : Store) (uid appointment_id : Nat) :
    Store × Except BookingErr Unit :=
  match lookupOwnedAppointment st appointment_id uid with
  | none => (st, .error .appointmentNotFound)
  | some app =>
    let st1 := setAppointmentStatus st appointment_id .cancelled
    let st2 := setSlotAvailable st1 app.slot_id true
    (st2, .ok ())

/-- The cancel path's slot-freeing step (part_000 lines 192–196):
`update({is_available: true}).eq('id', slot_id)`.  The update reports no
error regardless of how many rows match, so the call always succeeds. -/
def release (st : Store) (slot_id : Nat) : Store × Bool :=
  (setSlotAvailable st slot_id true, true)

/-! ### Slot listing and automatic selection -/

/-- Strict comparison on the keys of the source's
`order('slot_date').order('slot_time')` listing query. -/
def slotKeyLT (a b : Slot) : Bool :=
  a.slot_date < b.slot_date || (a.slot_date == b.slot_date && a.slot_time < b.slot_time)

/-- Insert a slot into a key-ordered list, before the first element whose
key is not strictly smaller (so elements with equal keys keep the order in
which they were inserted — a stable model of the unspecified equal-key
order of SQL `ORDER BY`). -/
def insertByKey (x : Slot) : List Slot → List Slot
  | [] => [x]
  | y :: ys => if slotKeyLT y x then y :: insertByKey x ys else x :: y :: ys

/-- Stable sort by `(slot_date, slot_time)`, modelling the listing query's
`ORDER BY` clauses. -/
def orderSlots : List Slot → List Slot
  | [] => []
  | x :: xs => insertByKey x (orderSlots xs)

/-- `get_slots` (part_000 lines 40–67): available slots from today on,
ordered by date then time, first twenty. -/
def get_slots (st : Store) (today : Nat) : List Slot :=
  (orderSlots (st.slots.filter (fun s => s.is_available && today ≤ s.slot_date))).take 20

/-- Slot choice of `handlePreBookingComplete` (part_010 lines 286–297):
re-filter the fetched slots on availability and take the first one. -/
def selectSlot (st : Store) (today : Nat) : Option Slot :=
  ((get_slots st today).filter (fun s => s.is_available)).head?

/-! ### Questionnaire agent (src/supabase/functions/questionnaire-agent) -/

/-- The conflict key of the response upsert: `appointment_id,questionnaire_id`. -/
def qKeyMatch (aid : Nat) (qid : String) (q : QResponse) : Bool :=
  q.appointment_id == aid && q.questionnaire_id == qid

/-- `upsert(..., {onConflict: 'appointment_id,questionnaire_id'})`: replace
the row with the conflicting key when one exists, insert otherwise. -/
def upsertResponse (st : Store) (r : QResponse) : Store :=
  if st.qresponses.any (qKeyMatch r.appointment_id r.questionnaire_id) then
    { st with qresponses := st.qresponses.map (fun q =>
        if qKeyMatch r.appointment_id r.questionnaire_id q then r else q) }
  else
    { st with qresponses := st.qresponses ++ [r] }

/-- `submit_response` (questionnaire-agent lines 89–132): verify the
appointment belongs to the caller, then upsert the response row with the
questionnaire id defaulted to `'default'`. -/
def submit_response (st : Store) (uid appointment_id : Nat) (questionnaire_id : Option String)
    (responses : List (String × String)) : Store × Bool :=
  match lookupOwnedAppointment st appointment_id uid with
  | none => (st, false)
  | some _ =>
    let row : QResponse :=
      { appointment_id := appointment_id, patient_id := uid,
        questionnaire_id := questionnaire_id.getD "default", responses := responses }
    (upsertResponse st row, true)

/-! ### Reminder agent (src/supabase/functions/questionnaire-agent, second handler) -/

/-- First phase of `schedule_reminder` (lines 221–251): look the appointment
up by id only — the `patient_id` of the caller is never compared — and
insert a reminder row with status `'pending'`, the type defaulted to
`'email'`.  Returns the new store and the inserted row. -/
def schedule_reminder_insert (st : Store) (appointment_id : Nat)
    (reminder_type : Option String) (scheduled_at : Nat) :
    Store × Option Reminder :=
  match lookupAppointment st appointment_id with
  | none => (st, none)
  | some _ =>
    let rem : Reminder :=
      { id := st.nextId, appointment_id := appointment_id,
        reminder_type := reminder_type.getD "email",
        scheduled_at := scheduled_at, status := .pending, sent_at := none }
    ({ st with reminders := st.reminders ++ [rem], nextId := st.nextId + 1 }, some rem)

/-- `update({status: 'sent', sent_at: now}).eq('id', rid)` on `reminders`. -/
def markReminderSent (st : Store) (rid now : Nat) : Store :=
  { st with reminders := st.reminders.map (fun r =>
      if r.id == rid then { r with status := .sent, sent_at := some now } else r) }

/-- `schedule_reminder` (lines 221–263): insert the `'pending'` row, then —
still inside the same call — mark it `'sent'` with `sent_at` set to the
current time. -/
def schedule_reminder (st : Store) (appointment_id : Nat)
    (reminder_type : Option String) (scheduled_at now : Nat) : Store × Bool :=
  match schedule_reminder_insert st appointment_id reminder_type scheduled_at with
  | (st1, none) => (st1, false)
  | (st1, some rem) => (markReminderSent st1 rem.id now, true)

/-- Look a reminder up by id. -/
def lookupReminder (st : Store) (rid : Nat) : Option Reminder :=
  st.reminders.find? (fun r => r.id == rid)

/-! ### Invariant I1 -/

/-- Number of appointments with status in `{confirmed, pending}` whose
captured slot reference equals `sid`. -/
def activeRefs (st : Store) (sid : Nat) : Nat :=
  (st.appointments.filter (fun a =>
    (a.status == .confirmed || a.status == .pending) && a.slot_id == sid)).length

/-- Invariant I1 of the spec, as an executable check: for every slot,
`is_available = false` iff exactly one active appointment references it. -/
def I1check (st : Store) : Bool :=
  st.slots.all (fun s => (!s.is_available) == (activeRefs st s.id == 1))

/-! ### Interleaved model of `book_appointment`

Each Supabase call of the handler is one atomic step; between two steps of
one request, steps of a concurrent request may run.  A schedule is the
order in which two in-flight requests take their steps. -/

/-- Program counter of one in-flight `book_appointment` request: the
availability read, the appointment insert, the flag write. -/
inductive BookPc where
  | checkSlot
  | insertApp
  | markSlot
  | done (ok : Bool)
deriving DecidableEq, Repr

/-- One in-flight `book_appointment` request: its arguments and where in
the handler it currently is. -/
structure BookProc where
  uid : Nat
  doctor_id : Nat
  slot_id : Nat
  date : Nat
  time : Nat
  pc : BookPc
deriving DecidableEq, Repr

/-- One atomic step of a booking request, mirroring the handler's calls in
source order: the filtered read decides success, the insert appends the
`confirmed` appointment, the write clears the flag. -/
def bookStep (st : Store) (p : BookProc) : Store × BookProc :=
  match p.pc with
  | .checkSlot =>
    (st, { p with pc := if (lookupAvailableSlot st p.slot_id).isSome then .insertApp else .done false })
  | .insertApp =>
    let app : Appointment :=
      { id := st.nextId, patient_id := p.uid, doctor_id := p.doctor_id, slot_id := p.slot_id,
        appointment_date := p.date, appointment_time := p.time, status := .confirmed }
    (insertAppointment st app, { p with pc := .markSlot })
  | .markSlot => (setSlotAvailable st p.slot_id false, { p with pc := .done true })
  | .done _ => (st, p)

/-- Run two concurrent booking requests under an explicit schedule:
`true` steps the first request, `false` the second. -/
def runSchedule : List Bool → Store × BookProc × BookProc → Store × BookProc × BookProc
  | [], s => s
  | c :: cs, (st, p1, p2) =>
    if c then
      let r := bookStep st p1
      runSchedule cs (r.1, r.2, p2)
    else
      let r := bookStep st p2
      runSchedule cs (r.1, p1, r.2)

/-- Whether a finished booking request reported success. -/
def bookSucceeded (p : BookProc) : Bool :=
  p.pc == .done true

/-! ### CrewAI client and orchestrator

`automaticBookingWithCrewAI` (part_003 lines 423–460) is the frontend
client of the backend orchestrator; it translates the backend's HTTP
response into a `CrewAIAutomaticResult`, passing the per-step flags
through unchanged. -/

/-- The relevant fields of the backend's response to
`POST /api/crewai/automatic-booking`. -/
structure BackendResponse where
  ok : Bool
  appointment_id : Option Nat
  reminder_scheduled : Option Bool
  questionnaire_sent : Option Bool
deriving DecidableEq, Repr

/-- The client's result type (part_003). -/
structure CrewAIAutomaticResult where
  success : Bool
  appointment_id : Option Nat
  reminder_scheduled : Option Bool
  questionnaire_sent : Option Bool
deriving DecidableEq, Repr

/-- `automaticBookingWithCrewAI` (part_003 lines 423–460): a non-ok
response maps to `success := false`; an ok response maps to
`success := true` with the backend's per-step flags passed through. -/
def automaticBookingWithCrewAI (resp : BackendResponse) : CrewAIAutomaticResult :=
  if resp.ok then
    { success := true, appointment_id := resp.appointment_id,
      reminder_scheduled := resp.reminder_scheduled,
      questionnaire_sent := resp.questionnaire_sent }
  else
    { success := false, appointment_id := none,
      reminder_scheduled := none, questionnaire_sent := none }

/-- Modelled from the spec: step 2 of the saga — when enabled and its
collaborator succeeds (`doIt`), schedule the reminder for the new
appointment; a failed or disabled step leaves the store untouched. -/
def orchReminderStep (st : Store) (aid now : Nat) (doIt : Bool) : Store :=
  if doIt then (schedule_reminder st aid none now now).1 else st

/-- Modelled from the spec: step 3 of the saga — when enabled and its
collaborator succeeds (`doIt`), dispatch the default questionnaire for the
new appointment; a failed or disabled step leaves the store untouched. -/
def orchQuestionnaireStep (st : Store) (aid uid : Nat) (doIt : Bool) : Store :=
  if doIt then
    upsertResponse st
      { appointment_id := aid, patient_id := uid, questionnaire_id := "default", responses := [] }
  else st

/-- Modelled from the spec: the backend handler of
`POST /api/crewai/automatic-booking` (the FastAPI orchestrator) is not
under src/ — only its client, part_003, and setup docs are.  Per §4.3 it
runs step 1 (select a slot and reserve+create the appointment) and aborts
with failure if step 1 fails; steps 2 (reminder) and 3 (questionnaire)
are best-effort, their collaborators' outcomes given here as the flags
`reminderOk`/`questOk`, and a step-2/3 failure never rolls step 1 back;
the response reports `reminder_scheduled` and `questionnaire_sent`
independently of overall success. -/
def orchestrate (st : Store) (today uid : Nat)
    (wantReminder wantQuest reminderOk questOk : Bool) (now : Nat) :
    Store × BackendResponse :=
  match selectSlot st today with
  | none => (st, { ok := false, appointment_id := none,
                   reminder_scheduled := none, questionnaire_sent := none })
  | some slot =>
    match book_appointment st uid slot.doctor_id slot.id slot.slot_date slot.slot_time with
    | (_, .error _) =>
      (st, { ok := false, appointment_id := none,
             reminder_scheduled := none, questionnaire_sent := none })
    | (st1, .ok app) =>
      let remDone := wantReminder && reminderOk
      let qDone := wantQuest && questOk
      (orchQuestionnaireStep (orchReminderStep st1 app.id now remDone) app.id uid qDone,
       { ok := true, appointment_id := some app.id,
         reminder_scheduled := some remDone, questionnaire_sent := some qDone })

/-! ### Concrete stores used by the analysis -/

/-- A store holding a single available slot, the target of the two racing
booking requests. -/
def bookRaceStore : Store :=
  { slots := [⟨1, 1, 10, 9, true⟩], appointments := [], reminders := [], qresponses := [], nextId := 100 }

/-- First racing booking request (patient 1), about to run its availability read. -/
def bookReq1 : BookProc :=
  { uid := 1, doctor_id := 1, slot_id := 1, date := 10, time := 9, pc := .checkSlot }

/-- Second racing booking request (patient 2) for the same slot. -/
def bookReq2 : BookProc :=
  { uid := 2, doctor_id := 1, slot_id := 1, date := 10, time := 9, pc := .checkSlot }

/-- A store satisfying I1: slot 1 is held by appointment 10 (patient 1) and
slot 2 by appointment 11 (patient 2); both slots unavailable. -/
def reschedStore : Store :=
  { slots := [⟨1, 1, 10, 9, false⟩, ⟨2, 2, 11, 9, false⟩],
    appointments := [⟨10, 1, 1, 1, 10, 9, .confirmed⟩, ⟨11, 2, 2, 2, 11, 9, .confirmed⟩],
    reminders := [], qresponses := [], nextId := 100 }

/-- A store whose only appointment (id 10, patient 1, slot 1) is already
`completed`. -/
def completedStore : Store :=
  { slots := [⟨1, 1, 10, 9, true⟩],
    appointments := [⟨10, 1, 1, 1, 10, 9, .completed⟩],
    reminders := [], qresponses := [], nextId := 100 }

/-- A store with two available slots sharing date 5 and time 10; the slot of
doctor 2 is listed before the slot of doctor 1. -/
def tieStore : Store :=
  { slots := [⟨1, 2, 5, 10, true⟩, ⟨2, 1, 5, 10, true⟩],
    appointments := [], reminders := [], qresponses := [], nextId := 0 }

/-- A store with one available slot and one confirmed appointment of
patient 1, used to instantiate the general theorems. -/
def demoStore : Store :=
  { slots := [⟨1, 1, 10, 9, true⟩],
    appointments := [⟨10, 1, 1, 2, 10, 9, .confirmed⟩],
    reminders := [], qresponses := [], nextId := 100 }

end MedScheduler

namespace MedScheduler

/-! ### Helper lemmas about the primitive operations -/

theorem appointments_setSlotAvailable (st : Store) (sid : Nat) (b : Bool) :
    (setSlotAvailable st sid b).appointments = st.appointments := rfl

theorem slots_setAppointmentStatus (st : Store) (aid : Nat) (stat : AppStatus) :
    (setAppointmentStatus st aid stat).slots = st.slots := rfl

theorem mem_setSlotAvailable_id (st : Store) (sid : Nat) (b : Bool) :
    ∀ s ∈ (setSlotAvailable st sid b).slots, s.id = sid → s.is_available = b := by
  intro s hs hid
  simp only [setSlotAvailable, List.mem_map] at hs
  obtain ⟨a, _, ha⟩ := hs
  by_cases h : a.id = sid
  · simp [h] at ha
    simp [← ha]
  · simp [h] at ha
    subst ha
    exact absurd hid h

theorem mem_setAppointmentStatus_id (st : Store) (aid : Nat) (stat : AppStatus) :
    ∀ a ∈ (setAppointmentStatus st aid stat).appointments, a.id = aid → a.status = stat := by
  intro a ha hid
  simp only [setAppointmentStatus, List.mem_map] at ha
  obtain ⟨b, _, hb⟩ := ha
  by_cases h : b.id = aid
  · simp [h] at hb
    simp [← hb]
  · simp [h] at hb
    subst hb
    exact absurd hid h

theorem slotKeyLT_irrefl (a : Slot) : slotKeyLT a a = false := by
  simp [slotKeyLT]

theorem slotKeyLT_asymm {a b : Slot} (h : slotKeyLT a b = true) : slotKeyLT b a = false := by
  simp only [slotKeyLT, Bool.or_eq_true, Bool.and_eq_true, decide_eq_true_eq, beq_iff_eq,
    Bool.or_eq_false_iff, Bool.and_eq_false_iff, decide_eq_false_iff_not, beq_eq_false_iff_ne] at h ⊢
  omega

theorem slotKeyLT_trans_false {a b c : Slot} (h1 : slotKeyLT b a = false)
    (h2 : slotKeyLT c b = false) : slotKeyLT c a = false := by
  simp only [slotKeyLT, Bool.or_eq_false_iff, Bool.and_eq_false_iff, decide_eq_false_iff_not,
    beq_eq_false_iff_ne] at h1 h2 ⊢
  omega

theorem mem_insertByKey {x y : Slot} {l : List Slot} :
    y ∈ insertByKey x l ↔ y = x ∨ y ∈ l := by
  induction l with
  | nil => simp [insertByKey]
  | cons z zs ih =>
    simp only [insertByKey]
    split
    · simp only [List.mem_cons, ih]
      tauto
    · simp only [List.mem_cons]

theorem mem_orderSlots {y : Slot} {l : List Slot} : y ∈ orderSlots l ↔ y ∈ l := by
  induction l with
  | nil => simp [orderSlots]
  | cons z zs ih => simp [orderSlots, mem_insertByKey, ih]

theorem pairwise_insertByKey {x : Slot} {l : List Slot}
    (hl : l.Pairwise (fun a b => slotKeyLT b a = false)) :
    (insertByKey x l).Pairwise (fun a b => slotKeyLT b a = false) := by
  induction l with
  | nil => simp [insertByKey]
  | cons y ys ih =>
    rw [List.pairwise_cons] at hl
    obtain ⟨hy, hys⟩ := hl
    simp only [insertByKey]
    split
    · rename_i hlt
      rw [List.pairwise_cons]
      refine ⟨?_, ih hys⟩
      intro z hz
      rcases mem_insertByKey.mp hz with rfl | hz'
      · exact slotKeyLT_asymm hlt
      · exact hy z hz'
    · rename_i hnlt
      have hyx : slotKeyLT y x = false := Bool.eq_false_iff.mpr hnlt
      rw [List.pairwise_cons]
      refine ⟨?_, List.pairwise_cons.mpr ⟨hy, hys⟩⟩
      intro z hz
      rcases List.mem_cons.mp hz with rfl | hz'
      · exact hyx
      · exact slotKeyLT_trans_false hyx (hy z hz')

theorem pairwise_orderSlots (l : List Slot) :
    (orderSlots l).Pairwise (fun a b => slotKeyLT b a = false) := by
  induction l with
  | nil => simp [orderSlots]
  | cons x xs ih => exact pairwise_insertByKey ih

theorem orderSlots_head_min {l rest : List Slot} {s : Slot}
    (h : orderSlots l = s :: rest) : ∀ x ∈ l, slotKeyLT x s = false := by
  intro x hx
  have hx' : x ∈ orderSlots l := mem_orderSlots.mpr hx
  rw [h] at hx'
  rcases List.mem_cons.mp hx' with rfl | hx''
  · exact slotKeyLT_irrefl x
  · have hp := pairwise_orderSlots l
    rw [h, List.pairwise_cons] at hp
    exact hp.1 x hx''

/-! ### Claim theorems -/

/-- C1.  The claim says that of N concurrent `book_appointment` calls on one
slot exactly one succeeds, the rest failing with `SlotUnavailable`, because
the reservation is a single conditional write.  The handler instead
performs the availability read, the appointment insert and the flag write
as three separate calls: under the interleaving where both requests run
their availability read before either write, both requests report success,
two confirmed appointments reference the slot, and the slot ends
unavailable — the double booking the claim rules out. -/
theorem book_concurrent_double_booking :
    bookSucceeded (runSchedule [true, false, true, true, false, false] (bookRaceStore, bookReq1, bookReq2)).2.1 = true ∧
    bookSucceeded (runSchedule [true, false, true, true, false, false] (bookRaceStore, bookReq1, bookReq2)).2.2 = true ∧
    activeRefs (runSchedule [true, false, true, true, false, false] (bookRaceStore, bookReq1, bookReq2)).1 1 = 2 ∧
    lookupSlot (runSchedule [true, false, true, true, false, false] (bookRaceStore, bookReq1, bookReq2)).1 1 =
      some ⟨1, 1, 10, 9, false⟩ := by
  decide

/-- C2.  The claim says reschedule reserves the new slot before releasing
the old one, and that a reschedule whose target slot is already unavailable
fails with `SlotUnavailable`, leaving both slots and the appointment
unchanged.  The handler instead frees the old slot first and never reads
the new slot's availability: rescheduling appointment 10 onto slot 2,
which is already held by appointment 11, succeeds, releases old slot 1,
and repoints the appointment at the occupied slot 2. -/
theorem reschedule_to_unavailable_slot_succeeds :
    lookupSlot reschedStore 2 = some ⟨2, 2, 11, 9, false⟩ ∧
    (reschedule_appointment reschedStore 1 10 2 11 9).2.toOption =
      some ⟨10, 1, 1, 2, 11, 9, .confirmed⟩ ∧
    lookupSlot (reschedule_appointment reschedStore 1 10 2 11 9).1 1 = some ⟨1, 1, 10, 9, true⟩ ∧
    lookupAppointment (reschedule_appointment reschedStore 1 10 2 11 9).1 10 =
      some ⟨10, 1, 1, 2, 11, 9, .confirmed⟩ := by
  decide

/-- C3.  The claim says invariant I1 (a slot is unavailable iff exactly one
confirmed-or-pending appointment references it) holds after every completed
core operation.  Starting from a store satisfying I1, the completed
`reschedule_appointment` of appointment 10 onto the already-held slot 2
leaves slot 2 unavailable but referenced by two confirmed appointments, so
I1 fails afterwards. -/
theorem reschedule_breaks_I1 :
    I1check reschedStore = true ∧
    (reschedule_appointment reschedStore 1 10 2 11 9).2.toOption =
      some ⟨10, 1, 1, 2, 11, 9, .confirmed⟩ ∧
    I1check (reschedule_appointment reschedStore 1 10 2 11 9).1 = false ∧
    activeRefs (reschedule_appointment reschedStore 1 10 2 11 9).1 2 = 2 := by
  decide

/-- C5.  The claim says every mutating operation on an appointment by a
caller who is not its patient fails with `Forbidden` and changes nothing.
The reminder agent's `schedule_reminder` handler performs no ownership
comparison at all — its appointment read filters on id only — so a caller
(here identity 2) who does not own appointment 10 (owned by patient 1, as
the failing `lookupOwnedAppointment` shows) still gets success, and a
reminder row is written. -/
theorem schedule_reminder_ignores_ownership :
    lookupOwnedAppointment reschedStore 10 2 = none ∧
    (schedule_reminder reschedStore 10 none 5 6).2 = true ∧
    (schedule_reminder reschedStore 10 none 5 6).1.reminders ≠ [] := by
  decide

/-- C4 counterexample.  The claim says cancelling a `completed` appointment
fails with `InvalidTransition` and changes nothing.  The handler checks no
status: cancelling completed appointment 10 returns success and rewrites
its status to `cancelled`. -/
theorem cancel_completed_succeeds :
    lookupOwnedAppointment completedStore 10 1 = some ⟨10, 1, 1, 1, 10, 9, .completed⟩ ∧
    (cancel_appointment completedStore 1 10).2.toOption = some () ∧
    lookupAppointment (cancel_appointment completedStore 1 10).1 10 =
      some ⟨10, 1, 1, 1, 10, 9, .cancelled⟩ := by
  decide

/-- C4 amended.  Cancelling an existing appointment owned by the caller
succeeds regardless of its status — `completed` included — setting every
appointment with that id to `cancelled` and every slot with the captured
slot id to available; in particular a second cancel of an
already-cancelled appointment also returns success, but it re-frees the
slot rather than leaving slot availability untouched. -/
theorem cancel_any_status_ok (st : Store) (uid aid : Nat) (app : Appointment)
    (h : lookupOwnedAppointment st aid uid = some app) :
    (cancel_appointment st uid aid).2.toOption = some () ∧
    (∀ a ∈ (cancel_appointment st uid aid).1.appointments, a.id = aid → a.status = .cancelled) ∧
    (∀ s ∈ (cancel_appointment st uid aid).1.slots, s.id = app.slot_id → s.is_available = true) := by
  unfold cancel_appointment
  rw [h]
  refine ⟨rfl, ?_, ?_⟩
  · intro a ha hid
    rw [appointments_setSlotAvailable] at ha
    exact mem_setAppointmentStatus_id st aid .cancelled a ha hid
  · exact mem_setSlotAvailable_id (setAppointmentStatus st aid .cancelled) app.slot_id true

/-- Witness for C4's amended theorem at the completed appointment 10. -/
theorem cancel_any_status_ok_witness :
    (cancel_appointment completedStore 1 10).2.toOption = some () ∧
    (∀ a ∈ (cancel_appointment completedStore 1 10).1.appointments, a.id = 10 → a.status = .cancelled) ∧
    (∀ s ∈ (cancel_appointment completedStore 1 10).1.slots, s.id = 1 → s.is_available = true) :=
  cancel_any_status_ok completedStore 1 10 ⟨10, 1, 1, 1, 10, 9, .completed⟩ (by decide)

/-- C7.  The cancel path's slot-freeing update is idempotent: for any
existing slot, calling `release` twice in a row reports success both
times, and the slot is available after the first call and still after the
second — the second call is a no-op, not an error. -/
theorem release_idempotent (st : Store) (sid : Nat) (s : Slot)
    (h : lookupSlot st sid = some s) :
    (release st sid).2 = true ∧
    (release (release st sid).1 sid).2 = true ∧
    (∀ x ∈ (release st sid).1.slots, x.id = sid → x.is_available = true) ∧
    (∀ x ∈ (release (release st sid).1 sid).1.slots, x.id = sid → x.is_available = true) :=
  ⟨rfl, rfl, mem_setSlotAvailable_id st sid true,
    mem_setSlotAvailable_id (setSlotAvailable st sid true) sid true⟩

/-- Witness for C7 at slot 1 of the demo store. -/
theorem release_idempotent_witness :
    (release demoStore 1).2 = true ∧
    (release (release demoStore 1).1 1).2 = true ∧
    (∀ x ∈ (release demoStore 1).1.slots, x.id = 1 → x.is_available = true) ∧
    (∀ x ∈ (release (release demoStore 1).1 1).1.slots, x.id = 1 → x.is_available = true) :=
  release_idempotent demoStore 1 ⟨1, 1, 10, 9, true⟩ (by decide)

/-- C9 counterexample.  The claim says ties among equal date-and-time slots
are broken by doctor id ascending.  With two available slots both at date 5
time 10, doctor 2 listed first, the selection picks doctor 2's slot even
though doctor 1's slot matches with a smaller doctor id. -/
theorem selectSlot_ignores_doctor_id_tiebreak :
    (selectSlot tieStore 0).map Slot.doctor_id = some 2 ∧
    tieStore.slots.any
      (fun s => s.is_available && s.slot_date == 5 && s.slot_time == 10 && s.doctor_id == 1) = true := by
  decide

theorem selectSlot_head_spec (st : Store) (today : Nat) (s : Slot)
    (h : selectSlot st today = some s) :
    s ∈ st.slots ∧ s.is_available = true ∧ today ≤ s.slot_date ∧
    ∀ x ∈ st.slots, x.is_available = true → today ≤ x.slot_date → slotKeyLT x s = false := by
  unfold selectSlot get_slots at h
  cases hs : orderSlots (st.slots.filter (fun s => s.is_available && today ≤ s.slot_date)) with
  | nil =>
    rw [hs] at h
    simp at h
  | cons a rest =>
    rw [hs] at h
    have ha_mem : a ∈ st.slots.filter (fun s => s.is_available && today ≤ s.slot_date) := by
      have hmem : a ∈ orderSlots (st.slots.filter (fun s => s.is_available && today ≤ s.slot_date)) := by
        rw [hs]
        exact List.mem_cons_self a rest
      exact mem_orderSlots.mp hmem
    have ha := List.mem_filter.mp ha_mem
    have hpred := ha.2
    simp only [Bool.and_eq_true, decide_eq_true_eq] at hpred
    rw [show (20 : Nat) = 19 + 1 from rfl, List.take_succ_cons] at h
    rw [List.filter_cons, if_pos (by simp [hpred.1])] at h
    simp only [List.head?_cons, Option.some.injEq] at h
    subst h
    refine ⟨ha.1, hpred.1, hpred.2, ?_⟩
    intro x hx hxa hxd
    exact orderSlots_head_min hs x (List.mem_filter.mpr ⟨hx, by simp [hxa, hxd]⟩)

/-- C9 amended.  The slot the automatic path selects is an available slot
with date from today on, and no other such slot is earlier under the
lexicographic (date, time) order; ties among slots with equal date and
time follow the store's listing order rather than doctor id. -/
theorem selectSlot_earliest_by_date_time (st : Store) (today : Nat) (s : Slot)
    (h : selectSlot st today = some s) :
    s ∈ st.slots ∧ s.is_available = true ∧ today ≤ s.slot_date ∧
    ∀ x ∈ st.slots, x.is_available = true → today ≤ x.slot_date → slotKeyLT x s = false :=
  selectSlot_head_spec st today s h

/-- Witness for C9's amended theorem at the tie store. -/
theorem selectSlot_earliest_by_date_time_witness :
    (⟨1, 2, 5, 10, true⟩ : Slot) ∈ tieStore.slots ∧ (⟨1, 2, 5, 10, true⟩ : Slot).is_available = true ∧
    0 ≤ (⟨1, 2, 5, 10, true⟩ : Slot).slot_date ∧
    ∀ x ∈ tieStore.slots, x.is_available = true → 0 ≤ x.slot_date →
      slotKeyLT x ⟨1, 2, 5, 10, true⟩ = false :=
  selectSlot_earliest_by_date_time tieStore 0 ⟨1, 2, 5, 10, true⟩ (by decide)

theorem appointments_upsertResponse (st : Store) (r : QResponse) :
    (upsertResponse st r).appointments = st.appointments := by
  unfold upsertResponse
  split <;> rfl

theorem lookupOwnedAppointment_upsertResponse (st : Store) (r : QResponse) (aid uid : Nat) :
    lookupOwnedAppointment (upsertResponse st r) aid uid = lookupOwnedAppointment st aid uid := by
  unfold lookupOwnedAppointment upsertResponse
  split <;> rfl

theorem filter_replace {p : QResponse → Bool} {r : QResponse} (hr : p r = true)
    (l : List QResponse) :
    (l.map (fun q => if p q then r else q)).filter p = (l.filter p).map (fun _ => r) := by
  induction l with
  | nil => rfl
  | cons x xs ih =>
    by_cases hx : p x = true
    · simp [List.filter_cons, hx, hr, ih]
    · have hx' : p x = false := Bool.eq_false_iff.mpr hx
      simp [List.filter_cons, hx', ih]

theorem upsert_filter_key (st : Store) (r : QResponse)
    (hcount : (st.qresponses.filter (qKeyMatch r.appointment_id r.questionnaire_id)).length ≤ 1) :
    (upsertResponse st r).qresponses.filter (qKeyMatch r.appointment_id r.questionnaire_id) = [r] := by
  have hr : qKeyMatch r.appointment_id r.questionnaire_id r = true := by
    simp [qKeyMatch]
  unfold upsertResponse
  split
  · rename_i hany
    simp only
    rw [filter_replace hr]
    obtain ⟨x, hx, hpx⟩ := List.any_eq_true.mp hany
    have hmem : x ∈ st.qresponses.filter (qKeyMatch r.appointment_id r.questionnaire_id) :=
      List.mem_filter.mpr ⟨hx, hpx⟩
    have hpos : 0 < (st.qresponses.filter (qKeyMatch r.appointment_id r.questionnaire_id)).length :=
      List.length_pos.mpr (List.ne_nil_of_mem hmem)
    have hlen : (st.qresponses.filter (qKeyMatch r.appointment_id r.questionnaire_id)).length = 1 := by
      omega
    obtain ⟨y, hy⟩ := List.length_eq_one.mp hlen
    rw [hy]
    rfl
  · rename_i hany
    simp only
    rw [List.filter_append]
    have hnil : st.qresponses.filter (qKeyMatch r.appointment_id r.questionnaire_id) = [] := by
      rw [List.filter_eq_nil_iff]
      intro a ha hpa
      exact hany (List.any_eq_true.mpr ⟨a, ha, hpa⟩)
    rw [hnil, List.nil_append, List.filter_cons, if_pos hr]
    rfl

/-- C8.  Submitting a questionnaire response twice for the same
(appointment, questionnaire) pair is an idempotent upsert: both calls
succeed, and afterwards exactly one stored response carries the pair's
key, and its answers are the second submission's (last write wins).  The
hypothesis that the store starts with at most one row per key reflects the
unique conflict key `appointment_id,questionnaire_id` of the table. -/
theorem submit_response_last_write_wins (st : Store) (uid aid : Nat)
    (qidOpt : Option String) (ans1 ans2 : List (String × String)) (app : Appointment)
    (hOwn : lookupOwnedAppointment st aid uid = some app)
    (hUnique : (st.qresponses.filter (qKeyMatch aid (qidOpt.getD "default"))).length ≤ 1) :
    (submit_response st uid aid qidOpt ans1).2 = true ∧
    (submit_response (submit_response st uid aid qidOpt ans1).1 uid aid qidOpt ans2).2 = true ∧
    (submit_response (submit_response st uid aid qidOpt ans1).1 uid aid qidOpt ans2).1.qresponses.filter
        (qKeyMatch aid (qidOpt.getD "default")) =
      [⟨aid, uid, qidOpt.getD "default", ans2⟩] := by
  unfold submit_response
  rw [hOwn, lookupOwnedAppointment_upsertResponse, hOwn]
  refine ⟨rfl, rfl, ?_⟩
  have h1 := upsert_filter_key st ⟨aid, uid, qidOpt.getD "default", ans1⟩ hUnique
  have h2 := upsert_filter_key (upsertResponse st ⟨aid, uid, qidOpt.getD "default", ans1⟩)
    ⟨aid, uid, qidOpt.getD "default", ans2⟩ (by rw [h1]; simp)
  exact h2

/-- Witness for C8 at the demo store: patient 1 submits twice for
appointment 10. -/
theorem submit_response_last_write_wins_witness :
    (submit_response demoStore 1 10 none [("q1", "a")]).2 = true ∧
    (submit_response (submit_response demoStore 1 10 none [("q1", "a")]).1 1 10 none [("q1", "b")]).2 = true ∧
    (submit_response (submit_response demoStore 1 10 none [("q1", "a")]).1 1 10 none [("q1", "b")]).1.qresponses.filter
        (qKeyMatch 10 ((none : Option String).getD "default")) =
      [⟨10, 1, (none : Option String).getD "default", [("q1", "b")]⟩] :=
  submit_response_last_write_wins demoStore 1 10 none [("q1", "a")] [("q1", "b")]
    ⟨10, 1, 1, 2, 10, 9, .confirmed⟩ (by decide) (by decide)

theorem schedule_reminder_insert_some (st : Store) (aid sched : Nat) (rtype : Option String)
    (app : Appointment) (h : lookupAppointment st aid = some app) :
    schedule_reminder_insert st aid rtype sched =
      ({ st with
          reminders := st.reminders ++ [⟨st.nextId, aid, rtype.getD "email", sched, .pending, none⟩],
          nextId := st.nextId + 1 },
        some ⟨st.nextId, aid, rtype.getD "email", sched, .pending, none⟩) := by
  unfold schedule_reminder_insert
  rw [h]

theorem mem_markReminderSent_id (st : Store) (rid now : Nat) :
    ∀ r ∈ (markReminderSent st rid now).reminders, r.id = rid →
      r.status = .sent ∧ r.sent_at = some now := by
  intro r hr hid
  simp only [markReminderSent, List.mem_map] at hr
  obtain ⟨b, _, hb⟩ := hr
  by_cases h : b.id = rid
  · simp [h] at hb
    constructor <;> simp [← hb]
  · simp [h] at hb
    subst hb
    exact absurd hid h

/-- C10.  For an existing appointment, `schedule_reminder` first inserts
the reminder with status `'pending'` and no `sent_at`, with its type
defaulted from the caller's (absent) choice to `'email'`; before the call
returns, the row is updated to status `'sent'` with `sent_at` set to the
current time, and the call reports success — so a successfully scheduled
reminder is never left `'pending'`. -/
theorem schedule_reminder_pending_then_sent (st : Store) (aid sched now : Nat)
    (rtype : Option String) (app : Appointment)
    (h : lookupAppointment st aid = some app) :
    ∃ rem : Reminder,
      schedule_reminder_insert st aid rtype sched =
        ({ st with reminders := st.reminders ++ [rem], nextId := st.nextId + 1 }, some rem) ∧
      rem.status = .pending ∧ rem.sent_at = none ∧ rem.appointment_id = aid ∧
      rem.reminder_type = rtype.getD "email" ∧
      (schedule_reminder st aid rtype sched now).2 = true ∧
      (∀ r ∈ (schedule_reminder st aid rtype sched now).1.reminders,
        r.id = rem.id → r.status = .sent ∧ r.sent_at = some now) := by
  have hins := schedule_reminder_insert_some st aid sched rtype app h
  refine ⟨⟨st.nextId, aid, rtype.getD "email", sched, .pending, none⟩, hins, rfl, rfl, rfl, rfl, ?_, ?_⟩
  · unfold schedule_reminder
    rw [hins]
  · intro r hr hid
    unfold schedule_reminder at hr
    rw [hins] at hr
    exact mem_markReminderSent_id _ st.nextId now r hr hid

/-- Witness for C10 at the demo store: a reminder for appointment 10 with
no explicit type. -/
theorem schedule_reminder_pending_then_sent_witness :
    ∃ rem : Reminder,
      schedule_reminder_insert demoStore 10 none 7 =
        ({ demoStore with reminders := demoStore.reminders ++ [rem], nextId := demoStore.nextId + 1 },
          some rem) ∧
      rem.status = .pending ∧ rem.sent_at = none ∧ rem.appointment_id = 10 ∧
      rem.reminder_type = (none : Option String).getD "email" ∧
      (schedule_reminder demoStore 10 none 7 8).2 = true ∧
      (∀ r ∈ (schedule_reminder demoStore 10 none 7 8).1.reminders,
        r.id = rem.id → r.status = .sent ∧ r.sent_at = some 8) :=
  schedule_reminder_pending_then_sent demoStore 10 7 8 none
    ⟨10, 1, 1, 2, 10, 9, .confirmed⟩ (by decide)

theorem schedule_reminder_touches_only_reminders (st : Store) (aid sched now : Nat)
    (rt : Option String) :
    (schedule_reminder st aid rt sched now).1.appointments = st.appointments ∧
    (schedule_reminder st aid rt sched now).1.slots = st.slots ∧
    (schedule_reminder st aid rt sched now).1.qresponses = st.qresponses := by
  unfold schedule_reminder schedule_reminder_insert markReminderSent
  cases lookupAppointment st aid <;> exact ⟨rfl, rfl, rfl⟩

theorem slots_upsertResponse (st : Store) (r : QResponse) :
    (upsertResponse st r).slots = st.slots := by
  unfold upsertResponse
  split <;> rfl

theorem appointments_orchReminderStep (st : Store) (aid now : Nat) (b : Bool) :
    (orchReminderStep st aid now b).appointments = st.appointments := by
  unfold orchReminderStep
  split
  · exact (schedule_reminder_touches_only_reminders st aid now now none).1
  · rfl

theorem slots_orchReminderStep (st : Store) (aid now : Nat) (b : Bool) :
    (orchReminderStep st aid now b).slots = st.slots := by
  unfold orchReminderStep
  split
  · exact (schedule_reminder_touches_only_reminders st aid now now none).2.1
  · rfl

theorem appointments_orchQuestionnaireStep (st : Store) (aid uid : Nat) (b : Bool) :
    (orchQuestionnaireStep st aid uid b).appointments = st.appointments := by
  unfold orchQuestionnaireStep
  split
  · exact appointments_upsertResponse st _
  · rfl

theorem slots_orchQuestionnaireStep (st : Store) (aid uid : Nat) (b : Bool) :
    (orchQuestionnaireStep st aid uid b).slots = st.slots := by
  unfold orchQuestionnaireStep
  split
  · exact slots_upsertResponse st _
  · rfl

/-- C6.  Whenever step 1 of the automatic booking succeeds (a slot is
selected, reserved and the appointment created), the backend response is
ok and the client reports `success = true`, regardless of the outcomes of
the reminder and questionnaire steps; `reminder_scheduled` and
`questionnaire_sent` report each step's own outcome independently, and
the created appointment is still present, `confirmed` and on the reserved
slot — which stays unavailable — after steps 2 and 3 (they never undo
step 1). -/
theorem orchestrate_partial_failure_reports_success (st : Store) (today uid now : Nat)
    (wR wQ rOk qOk : Bool) (slot : Slot)
    (hsel : selectSlot st today = some slot) :
    (orchestrate st today uid wR wQ rOk qOk now).2.ok = true ∧
    (automaticBookingWithCrewAI (orchestrate st today uid wR wQ rOk qOk now).2).success = true ∧
    (orchestrate st today uid wR wQ rOk qOk now).2.reminder_scheduled = some (wR && rOk) ∧
    (orchestrate st today uid wR wQ rOk qOk now).2.questionnaire_sent = some (wQ && qOk) ∧
    (orchestrate st today uid wR wQ rOk qOk now).2.appointment_id = some st.nextId ∧
    (∃ a ∈ (orchestrate st today uid wR wQ rOk qOk now).1.appointments,
      a.id = st.nextId ∧ a.status = .confirmed ∧ a.slot_id = slot.id) ∧
    (∃ s ∈ (orchestrate st today uid wR wQ rOk qOk now).1.slots,
      s.id = slot.id ∧ s.is_available = false) := by
  obtain ⟨hmem, havail, -, -⟩ := selectSlot_head_spec st today slot hsel
  obtain ⟨s', hs'⟩ : ∃ s', lookupAvailableSlot st slot.id = some s' := by
    have hsome : (lookupAvailableSlot st slot.id).isSome := by
      unfold lookupAvailableSlot
      rw [List.find?_isSome]
      exact ⟨slot, hmem, by simp [havail]⟩
    exact Option.isSome_iff_exists.mp hsome
  simp only [orchestrate, book_appointment, hsel, hs']
  refine ⟨trivial, rfl, trivial, trivial, trivial, ?_, ?_⟩
  · refine ⟨⟨st.nextId, uid, slot.doctor_id, slot.id, slot.slot_date, slot.slot_time, .confirmed⟩,
      ?_, rfl, rfl, rfl⟩
    rw [appointments_orchQuestionnaireStep, appointments_orchReminderStep,
      appointments_setSlotAvailable]
    simp [insertAppointment]
  · rw [slots_orchQuestionnaireStep, slots_orchReminderStep]
    refine ⟨{ slot with is_available := false }, ?_, rfl, rfl⟩
    have hmem' : slot ∈ (insertAppointment st
        ⟨st.nextId, uid, slot.doctor_id, slot.id, slot.slot_date, slot.slot_time, .confirmed⟩).slots :=
      hmem
    unfold setSlotAvailable
    exact List.mem_map.mpr ⟨slot, hmem', by simp⟩

/-- Witness for C6 at the demo store, with the reminder collaborator
simulated to fail: the result is still a success with
`reminder_scheduled = some false`. -/
theorem orchestrate_partial_failure_reports_success_witness :
    (orchestrate demoStore 0 1 true true false true 9).2.ok = true ∧
    (automaticBookingWithCrewAI (orchestrate demoStore 0 1 true true false true 9).2).success = true ∧
    (orchestrate demoStore 0 1 true true false true 9).2.reminder_scheduled = some (true && false) ∧
    (orchestrate demoStore 0 1 true true false true 9).2.questionnaire_sent = some (true && true) ∧
    (orchestrate demoStore 0 1 true true false true 9).2.appointment_id = some demoStore.nextId ∧
    (∃ a ∈ (orchestrate demoStore 0 1 true true false true 9).1.appointments,
      a.id = demoStore.nextId ∧ a.status = .confirmed ∧ a.slot_id = (⟨1, 1, 10, 9, true⟩ : Slot).id) ∧
    (∃ s ∈ (orchestrate demoStore 0 1 true true false true 9).1.slots,
      s.id = (⟨1, 1, 10, 9, true⟩ : Slot).id ∧ s.is_available = false) :=
  orchestrate_partial_failure_reports_success demoStore 0 1 9 true true false true
    ⟨1, 1, 10, 9, true⟩ (by decide)

end MedScheduler
